import Mathlib

/-!
Verification of the BigQuery Explorer Streamlit app (src/streamlit_app.py).

The program is a linear script: it builds a warehouse client from secrets,
and on button presses runs either a literal query or a parameterized query,
rendering results as a table and (for the literal flow) a chart.  We embed
it as pure functions that produce a trace of UI and client effects.  The
warehouse client is an oracle: a pair of functions giving the result (rows
or an error message) of each kind of query.
-/

namespace BQApp

/-- A result row, with the columns produced by the queries in the app
(name, gender, total_count). -/
structure Row where
  name : String
  gender : String
  total_count : Int
deriving DecidableEq

/-- A scalar query parameter value: the app only ever builds STRING and
INT64 scalars (bigquery.ScalarQueryParameter). -/
inductive ParamValue where
  | str (s : String)
  | int64 (n : Int)
deriving DecidableEq

/-- One bigquery.ScalarQueryParameter(name, type, value) triple. -/
structure Param where
  name : String
  type : String
  value : ParamValue
deriving DecidableEq

/-- Observable effects of one run of the script: streamlit UI calls and
calls into the warehouse client. -/
inductive Effect where
  | info (msg : String)
  | success (msg : String)
  | errorMsg (msg : String)
  | dataframe (df : List Row)
  | subheader (s : String)
  | barChart (data : List (String × Int))
  | lineChart (data : List (String × Int))
  | areaChart (data : List (String × Int))
  | clientQuery (sql : String)
  | clientParamQuery (sql : String) (params : List Param)
deriving DecidableEq

/-- The warehouse client collaborator, as an oracle: `runQuery sql` is the
outcome of `client.query(sql).to_dataframe()`, and `runParamQuery sql ps`
the outcome of `client.query(sql, job_config).to_dataframe()` with
parameter list `ps`.  An `Except.error e` models any exception raised
during execution or dataframe conversion, carrying its message. -/
structure Client where
  runQuery : String → Except String (List Row)
  runParamQuery : String → List Param → Except String (List Row)

/-- get_client body (src lines 13-25): build credentials and the client
from secrets; on any exception show an error and return None.
`secretsResult` is the outcome of credential parsing plus client
construction. -/
def get_client (secretsResult : Except String Client) :
    Option Client × List Effect :=
  match secretsResult with
  | .ok c => (some c, [])
  | .error e => (none, [.errorMsg ("Error creating BigQuery client: " ++ e)])

/-- The success banner text (src lines 58 and 115). -/
def successMsg (n : Nat) : String :=
  "Query returned " ++ toString n ++ " rows"

/-- The chart series df.set_index applied at column name, projected to
total_count (src lines 70, 72, 74). -/
def chartData (df : List Row) : List (String × Int) :=
  df.map (fun r => (r.name, r.total_count))

/-- The chart section of the literal flow (src lines 62-74): only entered
when the dataframe has at least one row; draws one chart according to the
selected chart type. -/
def chartEffects (chart_type : String) (df : List Row) : List Effect :=
  if df.length > 0 then
    [.subheader "Visualization"] ++
      (if chart_type = "Bar Chart" then [.barChart (chartData df)]
       else if chart_type = "Line Chart" then [.lineChart (chartData df)]
       else if chart_type = "Area Chart" then [.areaChart (chartData df)]
       else [])
  else []

/-- The literal query flow (src lines 50-77): info banner, execute the
query, then either show the success count, the dataframe and the chart
section, or catch the exception and show its message. -/
def runLiteralFlow (c : Client) (query chart_type : String) : List Effect :=
  match c.runQuery query with
  | .ok df =>
      [.info "Running query...", .clientQuery query,
       .success (successMsg df.length), .dataframe df]
        ++ chartEffects chart_type df
  | .error e =>
      [.info "Running query...", .clientQuery query,
       .errorMsg ("Error executing query: " ++ e)]

/-- The parameterized SQL template (src lines 91-99), verbatim. -/
def query_with_params : String :=
  "\n                SELECT name, gender, SUM(number) as total_count\n                FROM `bigquery-public-data.usa_names.usa_1910_2013`\n                WHERE state = @state\n                AND name LIKE @name_prefix\n                GROUP BY name, gender\n                ORDER BY total_count DESC\n                LIMIT @limit\n            "

/-- The query_parameters list of the job config (src lines 102-108): the
state and limit widget values are bound as given, the name input gets a
percent wildcard appended. -/
def mkParams (state pfx : String) (limit : Int) : List Param :=
  [⟨"state", "STRING", .str state⟩,
   ⟨"name_prefix", "STRING", .str (pfx ++ "%")⟩,
   ⟨"limit", "INT64", .int64 limit⟩]

/-- The parameterized query flow (src lines 88-119): build the parameter
list, info banner, execute with the job config, then either show the
success count and the dataframe, or catch the exception and show its
message.  No chart section exists in this flow. -/
def runParamFlow (c : Client) (state pfx : String) (limit : Int) :
    List Effect :=
  match c.runParamQuery query_with_params (mkParams state pfx limit) with
  | .ok df =>
      [.info "Running parameterized query...",
       .clientParamQuery query_with_params (mkParams state pfx limit),
       .success (successMsg df.length), .dataframe df]
  | .error e =>
      [.info "Running parameterized query...",
       .clientParamQuery query_with_params (mkParams state pfx limit),
       .errorMsg ("Error executing query: " ++ e)]

/-- Options of the state selectbox (src line 84). -/
def stateOptions : List String := ["TX", "CA", "NY", "FL", "IL"]

/-- Options of the chart type selectbox (src lines 64-67). -/
def chartOptions : List String := ["Bar Chart", "Line Chart", "Area Chart"]

/-- Streamlit selectbox contract: whatever the user does (modelled by an
arbitrary index), the returned value is one of the offered options. -/
def selectbox (options : List String) (choice : Nat) : String :=
  options.getD (choice % options.length) ""

/-- Streamlit slider contract: whatever the user does (modelled by an
arbitrary target value), the returned value is clamped to the offered
range (src line 86: bounds 1 and 50, default 10). -/
def slider (lo hi : Int) (choice : Int) : Int :=
  max lo (min hi choice)

/-- The user-controlled inputs of one script run. -/
structure Inputs where
  secretsResult : Except String Client
  query : String
  runQueryPressed : Bool
  chartChoice : Nat
  stateChoice : Nat
  pfx : String
  limitChoice : Int
  runParamPressed : Bool

/-- One full run of the script body (src lines 28-122): obtain the client;
if it is None show the failure banner and stop, otherwise run whichever
query flows the user triggered. -/
def app (inp : Inputs) : List Effect :=
  (get_client inp.secretsResult).2 ++
    match (get_client inp.secretsResult).1 with
    | some c =>
        (if inp.runQueryPressed then
           runLiteralFlow c inp.query (selectbox chartOptions inp.chartChoice)
         else [])
          ++ (if inp.runParamPressed then
                runParamFlow c (selectbox stateOptions inp.stateChoice) inp.pfx
                  (slider 1 50 inp.limitChoice)
              else [])
    | none =>
        [.errorMsg "Failed to initialize BigQuery client. Please check your credentials."]

/-- Characters allowed in a named placeholder after the at sign. -/
def isIdentChar (c : Char) : Bool := c.isAlpha || c.isDigit || c = '_'

/-- The named placeholders of a SQL template, in order of appearance:
every at sign starts one, extending over identifier characters. -/
def placeholders : List Char → List String
  | [] => []
  | c :: rest =>
      if c = '@' then
        String.mk (rest.takeWhile isIdentChar) :: placeholders rest
      else placeholders rest

/-- True when the effect is one of the three chart calls. -/
def isChartEffect : Effect → Bool
  | .barChart _ => true
  | .lineChart _ => true
  | .areaChart _ => true
  | _ => false

/-- True when the trace contains a chart call. -/
def hasChart (effs : List Effect) : Bool := effs.any isChartEffect

/-- Modelled from the spec: the memoization of get_client by the Streamlit
cache decorator (src line 12), whose implementation lives in the Streamlit
library, not in this repository.  Per the spec, the handle is loaded once
per process lifetime and cached for the process duration: the first call
runs the body and stores the result, every later call returns the stored
result without running the body.  `mk b` is the handle the body would
produce on its build number `b`, so distinct executions of the body yield
observably distinct handles; `cacheRun mk n cache builds` performs `n`
calls and returns the list of returned handles together with the final
count of body executions. -/
def cacheRun (mk : Nat → Option Client) :
    Nat → Option (Option Client) → Nat → List (Option Client) × Nat
  | 0, _, builds => ([], builds)
  | n + 1, some v, builds =>
      let r := cacheRun mk n (some v) builds
      (v :: r.1, r.2)
  | n + 1, none, builds =>
      let v := mk builds
      let r := cacheRun mk n (some v) (builds + 1)
      (v :: r.1, r.2)

theorem cacheRun_cached (mk : Nat → Option Client) (n : Nat)
    (v : Option Client) (b : Nat) :
    cacheRun mk n (some v) b = (List.replicate n v, b) := by
  induction n with
  | zero => rfl
  | succ n ih => simp [cacheRun, ih, List.replicate]

/-- C4: get_client is memoized: a process run of n calls, starting from an
empty cache, returns the very handle built on the first call at every
call, and the body (credential load plus client construction) runs at most
once. -/
theorem get_client_memoized (mk : Nat → Option Client) (n : Nat) :
    (cacheRun mk n none 0).1 = List.replicate n (mk 0) ∧
    (cacheRun mk n none 0).2 ≤ 1 := by
  cases n with
  | zero => exact ⟨rfl, by simp [cacheRun]⟩
  | succ n =>
      refine ⟨?_, ?_⟩
      · simp [cacheRun, cacheRun_cached, List.replicate]
      · simp [cacheRun, cacheRun_cached]

/-- C1: the SQL text submitted to the client in the parameterized flow is
the fixed template, independent of the user-supplied state, name input and
limit; its named placeholders are exactly state, name_prefix, limit, and
the parameter list carries exactly one (name, type, value) triple for each
of them, so no user value is concatenated into the query text. -/
theorem param_sql_text_fixed (c : Client) (s p : String) (l : Int) :
    (runParamFlow c s p l)[1]? =
      some (Effect.clientParamQuery query_with_params (mkParams s p l)) ∧
    placeholders query_with_params.toList = ["state", "name_prefix", "limit"] ∧
    (mkParams s p l).map Param.name = ["state", "name_prefix", "limit"] ∧
    (mkParams s p l).length = 3 := by
  refine ⟨?_, by decide, by simp [mkParams], rfl⟩
  unfold runParamFlow
  cases c.runParamQuery query_with_params (mkParams s p l) <;> rfl

/-- C2: any exception raised during query execution or dataframe
conversion, in either flow, is caught where it occurs: the run emits an
error banner carrying the underlying message, emits no dataframe, no
success banner and no chart, and the script (a total function here)
continues to the next action. -/
theorem query_errors_caught (c : Client) (q ct s p : String) (l : Int)
    (e1 e2 : String)
    (h1 : c.runQuery q = .error e1)
    (h2 : c.runParamQuery query_with_params (mkParams s p l) = .error e2) :
    runLiteralFlow c q ct =
      [.info "Running query...", .clientQuery q,
       .errorMsg ("Error executing query: " ++ e1)] ∧
    runParamFlow c s p l =
      [.info "Running parameterized query...",
       .clientParamQuery query_with_params (mkParams s p l),
       .errorMsg ("Error executing query: " ++ e2)] := by
  constructor
  · unfold runLiteralFlow
    rw [h1]
  · unfold runParamFlow
    rw [h2]

/-- Oracle client whose calls always raise, used as an error witness. -/
def failingClient : Client :=
  ⟨fun _ => .error "boom", fun _ _ => .error "denied"⟩

theorem query_errors_caught_witness :
    runLiteralFlow failingClient "SELECT 1" "Bar Chart" =
      [.info "Running query...", .clientQuery "SELECT 1",
       .errorMsg ("Error executing query: " ++ "boom")] ∧
    runParamFlow failingClient "TX" "Jo" 10 =
      [.info "Running parameterized query...",
       .clientParamQuery query_with_params (mkParams "TX" "Jo" 10),
       .errorMsg ("Error executing query: " ++ "denied")] :=
  query_errors_caught failingClient "SELECT 1" "Bar Chart" "TX" "Jo" 10
    "boom" "denied" rfl rfl

/-- C3: when credential parsing or client construction raises, the run
shows the creation error followed by the failure banner, and no query
submission path runs: the trace holds no client call of either kind. -/
theorem auth_failure_no_queries (inp : Inputs) (e : String)
    (h : inp.secretsResult = .error e) :
    app inp =
      [.errorMsg ("Error creating BigQuery client: " ++ e),
       .errorMsg "Failed to initialize BigQuery client. Please check your credentials."] ∧
    ∀ eff ∈ app inp,
      (∀ sql, eff ≠ .clientQuery sql) ∧ ∀ sql ps, eff ≠ .clientParamQuery sql ps := by
  have happ : app inp =
      [.errorMsg ("Error creating BigQuery client: " ++ e),
       .errorMsg "Failed to initialize BigQuery client. Please check your credentials."] := by
    unfold app
    rw [h]
    rfl
  refine ⟨happ, ?_⟩
  rw [happ]
  intro eff heff
  rcases List.mem_cons.mp heff with hrfl | htail
  · subst hrfl
    exact ⟨fun _ hc => (nomatch hc), fun _ _ hc => nomatch hc⟩
  · rcases List.mem_cons.mp htail with hrfl | hnil
    · subst hrfl
      exact ⟨fun _ hc => (nomatch hc), fun _ _ hc => nomatch hc⟩
    · exact absurd hnil (List.not_mem_nil _)

/-- Inputs whose secret payload is malformed, with both buttons pressed. -/
def badInputs : Inputs :=
  ⟨.error "missing key", "SELECT 1", true, 0, 0, "Jo", 10, true⟩

theorem auth_failure_no_queries_witness :
    app badInputs =
      [.errorMsg ("Error creating BigQuery client: " ++ "missing key"),
       .errorMsg "Failed to initialize BigQuery client. Please check your credentials."] ∧
    ∀ eff ∈ app badInputs,
      (∀ sql, eff ≠ .clientQuery sql) ∧ ∀ sql ps, eff ≠ .clientParamQuery sql ps :=
  auth_failure_no_queries badInputs "missing key" rfl

/-- C5: a literal run whose result set is empty renders the table only and
makes no chart call; conversely a chart call occurs only when the result
set has at least one row. -/
theorem empty_result_no_chart (c : Client) (q ct : String) (df : List Row)
    (h : c.runQuery q = .ok df) :
    (df = [] →
      runLiteralFlow c q ct =
        [.info "Running query...", .clientQuery q,
         .success (successMsg 0), .dataframe []]) ∧
    (hasChart (runLiteralFlow c q ct) = true → 0 < df.length) := by
  have hflow : runLiteralFlow c q ct =
      [.info "Running query...", .clientQuery q,
       .success (successMsg df.length), .dataframe df] ++ chartEffects ct df := by
    unfold runLiteralFlow
    rw [h]
  constructor
  · rintro rfl
    rw [hflow]
    simp [chartEffects]
  · intro hch
    rcases Nat.eq_zero_or_pos df.length with hz | hpos
    · exfalso
      have hdf : df = [] := List.length_eq_zero.mp hz
      subst hdf
      rw [hflow] at hch
      simp [hasChart, chartEffects, isChartEffect] at hch
    · exact hpos

/-- Oracle client whose calls always succeed with zero rows. -/
def emptyClient : Client := ⟨fun _ => .ok [], fun _ _ => .ok []⟩

theorem empty_result_no_chart_witness :
    (([] : List Row) = [] →
      runLiteralFlow emptyClient "SELECT 1" "Bar Chart" =
        [.info "Running query...", .clientQuery "SELECT 1",
         .success (successMsg 0), .dataframe []]) ∧
    (hasChart (runLiteralFlow emptyClient "SELECT 1" "Bar Chart") = true →
      0 < ([] : List Row).length) :=
  empty_result_no_chart emptyClient "SELECT 1" "Bar Chart" [] rfl

/-- Oracle client whose calls always succeed with exactly one row. -/
def oneRowClient : Client :=
  ⟨fun _ => .ok [⟨"John", "M", 5⟩], fun _ _ => .ok [⟨"John", "M", 5⟩]⟩

/-- C6, counterexample: a successful parameterized query returning one row
displays the table but makes no chart call of any kind, refuting the claim
that every successful execution also gets a chart display. -/
theorem param_success_no_chart :
    oneRowClient.runParamQuery query_with_params (mkParams "TX" "Jo" 10) =
      .ok [⟨"John", "M", 5⟩] ∧
    Effect.dataframe [⟨"John", "M", 5⟩] ∈ runParamFlow oneRowClient "TX" "Jo" 10 ∧
    hasChart (runParamFlow oneRowClient "TX" "Jo" 10) = false := by
  refine ⟨rfl, ?_, rfl⟩
  simp [runParamFlow, oneRowClient]

/-- C6, amended: every successful execution forwards its result set for
tabular display; the literal flow additionally draws the chart of the
selected kind, keyed by the name column with the total_count values, when
at least one row is present; the parameterized flow shows the table only,
never a chart. -/
theorem success_rendering (c : Client) (q ct s p : String) (l : Int)
    (df df2 : List Row)
    (h1 : c.runQuery q = .ok df)
    (h2 : c.runParamQuery query_with_params (mkParams s p l) = .ok df2) :
    Effect.dataframe df ∈ runLiteralFlow c q ct ∧
    (0 < df.length → ct = "Bar Chart" →
      Effect.barChart (chartData df) ∈ runLiteralFlow c q ct) ∧
    (0 < df.length → ct = "Line Chart" →
      Effect.lineChart (chartData df) ∈ runLiteralFlow c q ct) ∧
    (0 < df.length → ct = "Area Chart" →
      Effect.areaChart (chartData df) ∈ runLiteralFlow c q ct) ∧
    Effect.dataframe df2 ∈ runParamFlow c s p l ∧
    hasChart (runParamFlow c s p l) = false := by
  have hflow : runLiteralFlow c q ct =
      [.info "Running query...", .clientQuery q,
       .success (successMsg df.length), .dataframe df] ++ chartEffects ct df := by
    unfold runLiteralFlow
    rw [h1]
  have hpflow : runParamFlow c s p l =
      [.info "Running parameterized query...",
       .clientParamQuery query_with_params (mkParams s p l),
       .success (successMsg df2.length), .dataframe df2] := by
    unfold runParamFlow
    rw [h2]
  refine ⟨?_, ?_, ?_, ?_, ?_, ?_⟩
  · rw [hflow]
    simp
  · rintro hlen rfl
    rw [hflow]
    simp [chartEffects, hlen]
  · rintro hlen rfl
    rw [hflow]
    simp [chartEffects, hlen]
  · rintro hlen rfl
    rw [hflow]
    simp [chartEffects, hlen]
  · rw [hpflow]
    simp
  · rw [hpflow]
    rfl

theorem success_rendering_witness :
    Effect.dataframe [⟨"John", "M", 5⟩] ∈
      runLiteralFlow oneRowClient "SELECT 1" "Bar Chart" ∧
    (0 < [Row.mk "John" "M" 5].length → "Bar Chart" = "Bar Chart" →
      Effect.barChart (chartData [⟨"John", "M", 5⟩]) ∈
        runLiteralFlow oneRowClient "SELECT 1" "Bar Chart") ∧
    (0 < [Row.mk "John" "M" 5].length → "Bar Chart" = "Line Chart" →
      Effect.lineChart (chartData [⟨"John", "M", 5⟩]) ∈
        runLiteralFlow oneRowClient "SELECT 1" "Bar Chart") ∧
    (0 < [Row.mk "John" "M" 5].length → "Bar Chart" = "Area Chart" →
      Effect.areaChart (chartData [⟨"John", "M", 5⟩]) ∈
        runLiteralFlow oneRowClient "SELECT 1" "Bar Chart") ∧
    Effect.dataframe [⟨"John", "M", 5⟩] ∈ runParamFlow oneRowClient "TX" "Jo" 10 ∧
    hasChart (runParamFlow oneRowClient "TX" "Jo" 10) = false :=
  success_rendering oneRowClient "SELECT 1" "Bar Chart" "TX" "Jo" 10
    [⟨"John", "M", 5⟩] [⟨"John", "M", 5⟩] rfl rfl

/-- C7: on a successful literal run the row count announced in the success
banner is the length of the very dataframe displayed. -/
theorem literal_count_matches (c : Client) (q ct : String) (df : List Row)
    (h : c.runQuery q = .ok df) :
    Effect.success (successMsg df.length) ∈ runLiteralFlow c q ct ∧
    Effect.dataframe df ∈ runLiteralFlow c q ct := by
  have hflow : runLiteralFlow c q ct =
      [.info "Running query...", .clientQuery q,
       .success (successMsg df.length), .dataframe df] ++ chartEffects ct df := by
    unfold runLiteralFlow
    rw [h]
  constructor
  · rw [hflow]
    simp
  · rw [hflow]
    simp

theorem literal_count_matches_witness :
    Effect.success (successMsg [Row.mk "John" "M" 5].length) ∈
      runLiteralFlow oneRowClient "SELECT 1" "Bar Chart" ∧
    Effect.dataframe [⟨"John", "M", 5⟩] ∈
      runLiteralFlow oneRowClient "SELECT 1" "Bar Chart" :=
  literal_count_matches oneRowClient "SELECT 1" "Bar Chart"
    [⟨"John", "M", 5⟩] rfl

/-- C8: every parameter triple built by the parameterized flow has type
STRING or INT64; no other parameter type ever appears in the submitted
list. -/
theorem param_types_restricted (s p : String) (l : Int) :
    ((mkParams s p l).all fun q => q.type == "STRING" || q.type == "INT64") =
      true :=
  rfl

/-- C9: the value bound to the name_prefix parameter is exactly the user
input with one percent wildcard appended by the program, that parameter is
the only one so named, and the raw input (one character shorter) is never
the bound value. -/
theorem name_input_wildcard (s p : String) (l : Int) :
    (mkParams s p l)[1]? =
      some ⟨"name_prefix", "STRING", ParamValue.str (p ++ "%")⟩ ∧
    ((mkParams s p l).filter fun q => q.name == "name_prefix") =
      [⟨"name_prefix", "STRING", ParamValue.str (p ++ "%")⟩] ∧
    p ++ "%" ≠ p := by
  refine ⟨rfl, by simp [mkParams], ?_⟩
  intro hc
  have h2 := congrArg String.data hc
  rw [String.data_append] at h2
  have h3 : ("%" : String).data = ['%'] := rfl
  rw [h3] at h2
  have h4 := congrArg List.length h2
  simp at h4

/-- C10: the values bound in the parameterized flow come from the
UI-enforced domains: the bound state is one of the five selectbox options
TX, CA, NY, FL, IL, and the bound limit is clamped by the slider to the
range 1..50; the parameter list binds those very widget values. -/
theorem param_values_in_domain (i : Nat) (p : String) (v : Int) :
    selectbox stateOptions i ∈ stateOptions ∧
    1 ≤ slider 1 50 v ∧ slider 1 50 v ≤ 50 ∧
    (mkParams (selectbox stateOptions i) p (slider 1 50 v))[0]? =
      some ⟨"state", "STRING", ParamValue.str (selectbox stateOptions i)⟩ ∧
    (mkParams (selectbox stateOptions i) p (slider 1 50 v))[2]? =
      some ⟨"limit", "INT64", ParamValue.int64 (slider 1 50 v)⟩ := by
  refine ⟨?_, ?_, ?_, rfl, rfl⟩
  · have h5 : i % 5 < 5 := Nat.mod_lt _ (by norm_num)
    have hall : ∀ j : Fin 5, stateOptions.getD j.val "" ∈ stateOptions := by
      decide
    exact hall ⟨i % 5, h5⟩
  · exact le_max_left _ _
  · exact max_le (by norm_num) (min_le_left _ _)

end BQApp
